import Mathlib

/-!
Verification of the content persistence and media ingestion core of a small
imageboard server (src/main.rs).  The embedded key-value store (sled) is
modelled as an association list of string keys to record values; the record
values (JSON in the source) are modelled by a sum of the two record types,
together with the serde deserialization behaviour (a `Thread` JSON document
deserializes as a `Reply` because serde ignores unknown fields, while a
`Reply` document lacks the fields of `Thread`).  Time is passed explicitly
(`Utc::now().timestamp()` becomes a `now : Int` parameter), the filesystem
is a record of the three upload directories as lists of file names, and the
fallible image-decoding calls of the `image` crate become explicit boolean
outcomes carried by the upload descriptor.
-/

namespace Imageboard

/-- `enum MediaType` of src/main.rs. -/
inductive MediaType where
  | Image
  | Video
deriving DecidableEq, Repr

/-- `struct Thread` of src/main.rs (ids and timestamps are `i32`/`i64`;
modelled as `Int`, overflow being immaterial to the claims). -/
structure Thread where
  id : Int
  title : String
  message : String
  last_updated : Int
  media_url : Option String
  media_type : Option MediaType
deriving DecidableEq, Repr

/-- `struct Reply` of src/main.rs. -/
structure Reply where
  id : Int
  message : String
deriving DecidableEq, Repr

/-- A stored record value.  In the source, values are JSON byte strings; a
value is either the serialization of a `Thread` or of a `Reply`. -/
inductive Val where
  | thread (t : Thread)
  | reply (r : Reply)
deriving DecidableEq, Repr

/-- The sled database: keys mapped to record values, modelled as an
association list (first binding of a key is its current value). -/
abbrev Store := List (String × Val)

/-- Byte-prefix test used by sled's `scan_prefix`, on the character level
(all keys produced by the program are ASCII, so character prefixes and byte
prefixes agree). -/
def strHasPre (p s : String) : Bool := p.data.isPrefixOf s.data

/-- Character-level model of Rust's `str::trim`: drop leading and trailing
whitespace.  (Rust trims Unicode `White_Space`; the claims only involve
ASCII whitespace, where the two notions agree.) -/
def trimChars (l : List Char) : List Char :=
  ((l.dropWhile Char.isWhitespace).reverse.dropWhile Char.isWhitespace).reverse

/-- `s.trim()` on a Rust string. -/
def strTrim (s : String) : String := ⟨trimChars s.data⟩

/-- `s.is_empty()` on a Rust string. -/
def strIsEmpty (s : String) : Bool := s.data.isEmpty

/-- `db.get(key)`: the current binding of the key. -/
def storeGet : Store → String → Option Val
  | [], _ => none
  | kv :: rest, k => if kv.1 == k then some kv.2 else storeGet rest k

/-- `db.insert(key, value)`: sets `k` to `v`, replacing the current binding
if the key is present. -/
def storeInsert : Store → String → Val → Store
  | [], k, v => [(k, v)]
  | kv :: rest, k, v =>
    if kv.1 == k then (k, v) :: rest else kv :: storeInsert rest k v

/-- `db.scan_prefix(p)`: all entries whose key starts with `p`. -/
def scanPre (s : Store) (p : String) : Store :=
  s.filter (fun kv => strHasPre p kv.1)

/-- `format!("thread_{}", id)` — the key of a thread record. -/
def threadKey (id : Int) : String := "thread_" ++ toString id

/-- `format!("reply_{}_{}", parent_id, reply_id)` — the key of a reply
record. -/
def replyKey (parent id : Int) : String :=
  "reply_" ++ toString parent ++ "_" ++ toString id

/-- `format!("reply_{}", parent_id)` — the scan prefix used by
`get_replies` and `count_replies` (src/main.rs:673,686).  Note: no trailing
delimiter. -/
def replyScanPre (parent : Int) : String := "reply_" ++ toString parent

/-- `serde_json::from_slice::<Thread>` on a stored value: a reply document
lacks `title`/`last_updated`, so it fails. -/
def threadFromVal : Val → Option Thread
  | .thread t => some t
  | .reply _ => none

/-- `serde_json::from_slice::<Reply>` on a stored value: serde ignores
unknown fields, so a thread document (which has `id` and `message`) also
deserializes as a reply. -/
def replyFromVal : Val → Option Reply
  | .reply r => some r
  | .thread t => some ⟨t.id, t.message⟩

/-- `get_all_threads` (src/main.rs:297). -/
def get_all_threads (s : Store) : List Thread :=
  (scanPre s "thread_").filterMap (fun kv => threadFromVal kv.2)

/-- `count_threads` (src/main.rs:310). -/
def count_threads (s : Store) : Int :=
  ((scanPre s "thread_").length : Int)

/-- `get_replies` (src/main.rs:672). -/
def get_replies (s : Store) (parent : Int) : List Reply :=
  (scanPre s (replyScanPre parent)).filterMap (fun kv => replyFromVal kv.2)

/-- `count_replies` (src/main.rs:685). -/
def count_replies (s : Store) (parent : Int) : Int :=
  ((scanPre s (replyScanPre parent)).length : Int)

/-- Outcome of the `create_reply` handler (src/main.rs:626): the handler
answers 400 for an empty message and otherwise redirects to the thread
page.  The store-failure branch (500) is not modelled: `storeInsert` is
total. -/
inductive ReplyResult where
  | badRequest
  | seeOther (parent : Int)
deriving DecidableEq, Repr

/-- `create_reply` (src/main.rs:626-669): trims the message, rejects it if
empty, allocates `count_replies + 1` as the reply id, inserts the reply
record, then — if the parent thread record exists and deserializes — bumps
its `last_updated` to the current time.  There is no parent-existence
check before the reply is written. -/
def create_reply (s : Store) (parent : Int) (msg : String) (now : Int) :
    ReplyResult × Store :=
  let message := strTrim msg
  if strIsEmpty message then (.badRequest, s)
  else
    let reply_id := count_replies s parent + 1
    let s1 := storeInsert s (replyKey parent reply_id) (.reply ⟨reply_id, message⟩)
    let s2 :=
      match (storeGet s1 (threadKey parent)).bind threadFromVal with
      | some t => storeInsert s1 (threadKey parent) (.thread { t with last_updated := now })
      | none => s1
    (.seeOther parent, s2)

/-- The three upload directories created at startup (src/main.rs:58-60),
each as the list of file names it contains. -/
structure Fs where
  imageFiles : List String
  videoFiles : List String
  thumbFiles : List String
deriving DecidableEq, Repr

/-- One `media` multipart field with a non-empty filename.  `mimeTop` and
`mimeSub` are the top-level type and subtype produced by
`mime_guess::from_path(filename).first_or_octet_stream()`;
`uniqueId` is the `Uuid::new_v4()` string; `decodeOk` tells whether
`image::open` succeeds on the bytes stored at src/main.rs:529;
`thumbDecodeOk` whether the second `image::open` at src/main.rs:542
succeeds, and `thumbSaveOk` whether `thumb.save` at src/main.rs:544
succeeds (its result is discarded by the source: `.ok()`); `imgW`/`imgH`
are the pixel dimensions of the decoded image. -/
structure MediaUpload where
  mimeTop : String
  mimeSub : String
  uniqueId : String
  decodeOk : Bool
  thumbDecodeOk : Bool
  thumbSaveOk : Bool
  imgW : Nat
  imgH : Nat
deriving DecidableEq, Repr

/-- `std::fs::File::create` followed by the streamed writes: the name is
present in the directory afterwards (creating an already-existing file
truncates it, adding no second entry). -/
def addFile (files : List String) (name : String) : List String :=
  if name ∈ files then files else files ++ [name]

/-- The early-return error responses of the media branch of
`create_thread` (src/main.rs:507,531,559,584). -/
inductive MediaErr where
  | unsupportedImage
  | invalidImage
  | unsupportedVideo
  | unsupportedType
deriving DecidableEq, Repr

/-- The image-subtype allowlist at src/main.rs:503-506. -/
def allowedImageSub (sub : String) : Bool :=
  sub == "jpeg" || sub == "png" || sub == "gif" || sub == "webp"

/-- `format!("{}.{}", unique_id, extension)` (src/main.rs:516). -/
def sanitizedName (u : MediaUpload) : String := u.uniqueId ++ "." ++ u.mimeSub

/-- `format!("thumb_{}", sanitized_filename)` (src/main.rs:540). -/
def thumbName (name : String) : String := "thumb_" ++ name

/-- The `"media"` arm of the multipart loop in `create_thread`
(src/main.rs:489-588), for at most one media field.  `none` covers both an
absent field and an empty/whitespace-only filename (skipped at
src/main.rs:493).  Mirrors the source's order: subtype allowlist before
any file is written; the streamed write; `image::open` validation with
`remove_file` on failure; the GIF shortcut; otherwise the thumbnail
attempt, whose recorded URL follows the success of the second
`image::open` — the result of `thumb.save` is discarded. -/
def processMedia (fs : Fs) (m : Option MediaUpload) :
    Except MediaErr (Option String × Option MediaType) × Fs :=
  match m with
  | none => (.ok (none, none), fs)
  | some u =>
    if u.mimeTop == "image" then
      if !allowedImageSub u.mimeSub then (.error .unsupportedImage, fs)
      else
        let is_gif := u.mimeSub == "gif"
        let name := sanitizedName u
        let fs1 : Fs := { fs with imageFiles := addFile fs.imageFiles name }
        if !u.decodeOk then
          (.error .invalidImage, { fs1 with imageFiles := fs1.imageFiles.erase name })
        else if is_gif then
          (.ok (some ("/uploads/images/" ++ name), some .Image), fs1)
        else
          if u.thumbDecodeOk then
            let tn := thumbName name
            let fs2 : Fs :=
              if u.thumbSaveOk then { fs1 with thumbFiles := addFile fs1.thumbFiles tn } else fs1
            (.ok (some ("/thumbs/images/" ++ tn), some .Image), fs2)
          else
            (.ok (some ("/uploads/images/" ++ name), some .Image), fs1)
    else if u.mimeTop == "video" then
      if u.mimeSub != "mp4" then (.error .unsupportedVideo, fs)
      else
        let name := sanitizedName u
        (.ok (some ("/uploads/videos/" ++ name), some .Video),
         { fs with videoFiles := addFile fs.videoFiles name })
    else (.error .unsupportedType, fs)

/-- Output dimensions of `image::imageops::thumbnail(&img, 200, 200)`
(src/main.rs:543).  Unlike `DynamicImage::thumbnail`, the free function
`image::imageops::thumbnail` resizes the image to exactly the requested
dimensions (box sampling), so the output is 200×200 for every source
width and height. -/
def thumbnailDims (srcW srcH : Nat) : Nat × Nat :=
  let _ := srcW
  let _ := srcH
  (200, 200)

/-- Outcome of the `create_thread` handler (src/main.rs:457): an
early-return media error, the 400 for empty title/message, or the
success redirect.  The store-failure branch (500) is not modelled:
`storeInsert` is total. -/
inductive ThreadResult where
  | mediaError (e : MediaErr)
  | badRequest
  | seeOther
deriving DecidableEq, Repr

/-- `create_thread` (src/main.rs:457-623): processes the media field (its
errors return before the text validation), rejects empty trimmed
title/message, then allocates `count_threads + 1` as the thread id and
inserts the serialized thread under `thread_{id}`.  A media error or the
empty-text rejection writes no thread record. -/
def create_thread (s : Store) (fs : Fs) (title message : String)
    (media : Option MediaUpload) (now : Int) : ThreadResult × Store × Fs :=
  match processMedia fs media with
  | (.error e, fs1) => (.mediaError e, s, fs1)
  | (.ok (mu, mt), fs1) =>
    if strIsEmpty (strTrim title) || strIsEmpty (strTrim message) then
      (.badRequest, s, fs1)
    else
      let thread_id := count_threads s + 1
      let t : Thread := ⟨thread_id, strTrim title, strTrim message, now, mu, mt⟩
      (.seeOther, storeInsert s (threadKey thread_id) (.thread t), fs1)

/-- The comparator of `threads.sort_by(|a, b| b.last_updated.cmp(&a.last_updated))`
(src/main.rs:135): descending `last_updated`. -/
def threadGE (a b : Thread) : Prop := b.last_updated ≤ a.last_updated

instance : DecidableRel threadGE :=
  fun a b => Int.decLe b.last_updated a.last_updated

/-- The recency sort of the homepage.  Rust's `sort_by` is a stable sort;
`List.insertionSort` is also stable, and a stable sort's output is
determined by the comparator alone, so the two agree. -/
def sortThreads (l : List Thread) : List Thread := l.insertionSort threadGE

/-- `(total_threads as f64 / page_size as f64).ceil() as i32`
(src/main.rs:138) for `page_size = 10`.  For every `i32` count the
floating-point ceiling is exact and equals `(n + 9) / 10`. -/
def totalPages (total_threads : Int) : Int := (total_threads + 9) / 10

/-- The requested-page clamping of `homepage` (src/main.rs:132,140-144):
`query.page.unwrap_or(1).max(1)`, then clamped down to `total_pages` when
it exceeds a positive `total_pages`. -/
def effPage (qp : Option Int) (tp : Int) : Int :=
  let p := max (qp.getD 1) 1
  if p > tp ∧ 0 < tp then tp else p

/-- The thread-list slice computed by `homepage` (src/main.rs:127-148):
sort by `last_updated` descending, compute the page, then take
`&threads[start_index..end_index]` with `start_index = (page-1)*10` and
`end_index = min(start_index + 10, len)`.  Rust slicing panics when
`start_index > end_index`; the panic is modelled as `none`. -/
def homepage (threads : List Thread) (qp : Option Int) : Option (List Thread) :=
  let sorted := sortThreads threads
  let total_threads : Int := (sorted.length : Int)
  let tp := totalPages total_threads
  let page_number := effPage qp tp
  let start_index : Nat := ((page_number - 1) * 10).toNat
  let end_index : Nat := min (start_index + 10) sorted.length
  if start_index ≤ end_index then
    some ((sorted.drop start_index).take (end_index - start_index))
  else none

/-! ### Helper lemmas about the store and the key scheme -/

lemma storeGet_insert_self (s : Store) (k : String) (v : Val) :
    storeGet (storeInsert s k v) k = some v := by
  induction s with
  | nil => simp [storeInsert, storeGet]
  | cons kv rest ih =>
    rcases kv with ⟨k0, v0⟩
    by_cases h : k0 = k
    · subst h; simp [storeInsert, storeGet]
    · simp [storeInsert, storeGet, h, ih]

lemma storeGet_insert_ne (s : Store) (k k' : String) (v : Val) (h : k' ≠ k) :
    storeGet (storeInsert s k v) k' = storeGet s k' := by
  induction s with
  | nil => simp [storeInsert, storeGet, Ne.symm h]
  | cons kv rest ih =>
    rcases kv with ⟨k0, v0⟩
    by_cases h0 : k0 = k
    · subst h0
      simp [storeInsert, storeGet, Ne.symm h]
    · by_cases h1 : k0 = k'
      · subst h1
        simp [storeInsert, storeGet, h0]
      · simp [storeInsert, storeGet, h0, h1, ih]

lemma threadKey_data (i : Int) :
    (threadKey i).data
      = 't' :: 'h' :: 'r' :: 'e' :: 'a' :: 'd' :: '_' :: (toString i).data := by
  rw [threadKey, String.data_append]
  rfl

lemma replyKey_data (p i : Int) :
    (replyKey p i).data
      = 'r' :: 'e' :: 'p' :: 'l' :: 'y' :: '_'
          :: (toString p ++ "_" ++ toString i).data := by
  rw [replyKey, String.data_append, String.data_append, String.data_append]
  rfl

lemma threadKey_ne_replyKey (a p i : Int) : threadKey a ≠ replyKey p i := by
  intro h
  have h2 := congrArg String.data h
  rw [threadKey_data, replyKey_data] at h2
  exact absurd (List.cons.inj h2).1 (by decide)

lemma not_threadPre_replyKey (p i : Int) :
    strHasPre "thread_" (replyKey p i) = false := by
  rw [strHasPre, replyKey_data]
  rfl

/-- The success path of `create_thread`: when media processing succeeds and
the trimmed title and message are non-empty, the thread record with id
`count_threads + 1` is inserted under its key. -/
lemma create_thread_ok (s : Store) (fs : Fs) (title message : String)
    (media : Option MediaUpload) (now : Int)
    (mu : Option String) (mt : Option MediaType) (fs1 : Fs)
    (hpm : processMedia fs media = (.ok (mu, mt), fs1))
    (ht : strIsEmpty (strTrim title) = false)
    (hm : strIsEmpty (strTrim message) = false) :
    create_thread s fs title message media now
      = (.seeOther,
         storeInsert s (threadKey (count_threads s + 1))
           (.thread ⟨count_threads s + 1, strTrim title, strTrim message, now, mu, mt⟩),
         fs1) := by
  unfold create_thread
  rw [hpm]
  simp [ht, hm]

/-- Every successful outcome of the media pipeline sets the URL and the
kind together: both `none` (no attachment) or both `some`. -/
lemma processMedia_pairs (fs : Fs) (m : Option MediaUpload)
    (mu : Option String) (mt : Option MediaType) (fs1 : Fs)
    (h : processMedia fs m = (.ok (mu, mt), fs1)) : mu.isSome = mt.isSome := by
  cases m with
  | none =>
    simp [processMedia] at h
    rw [← h.1.1, ← h.1.2]
    rfl
  | some u =>
    simp only [processMedia] at h
    split_ifs at h <;> simp_all <;>
      (obtain ⟨⟨h1, h2⟩, -⟩ := h
       rw [← h1, ← h2]
       rfl)

/-! ### Claim theorems -/

/-- C1: the claim says `list_replies(P)` returns exactly the replies of
parent `P` (a scan prefix with the trailing-delimiter fix).  The code
scans `format!("reply_{}", parent_id)` with no trailing delimiter
(src/main.rs:673), so for parent 1 the scan also matches parent 10's
keys: in a store holding exactly one reply of parent 1 and one reply of
parent 10, `get_replies` for parent 1 returns both replies instead of
one. -/
theorem get_replies_prefix_collision :
    get_replies
      [(threadKey 1, .thread ⟨1, "t1", "m1", 0, none, none⟩),
       (threadKey 10, .thread ⟨10, "t10", "m10", 0, none, none⟩),
       (replyKey 1 1, .reply ⟨1, "to parent 1"⟩),
       (replyKey 10 1, .reply ⟨1, "to parent 10"⟩)] 1
      = [⟨1, "to parent 1"⟩, ⟨1, "to parent 10"⟩] := by decide

/-- C2: the claim says a reply whose `parent_id` names no existing thread
fails with NotFound and leaves the store unchanged.  The code has no
parent-existence check (src/main.rs:626-669): on a store whose only
thread is thread 1, replying to the absent parent 7 succeeds with the
redirect and records the orphan reply `reply_7_1`. -/
theorem create_reply_orphan_on_missing_parent :
    create_reply [(threadKey 1, .thread ⟨1, "t1", "m1", 0, none, none⟩)] 7 "hello" 5
      = (.seeOther 7,
         [(threadKey 1, .thread ⟨1, "t1", "m1", 0, none, none⟩),
          (replyKey 7 1, .reply ⟨1, "hello"⟩)]) := by decide

/-- C9: the claim says the slice bounds always satisfy
`start_index ≤ end_index ≤ len`, so any page of an empty board yields an
empty result.  On an empty board with requested page 2 the code computes
`start_index = 10`, `end_index = 0` and `&threads[10..0]` panics
(src/main.rs:146-148), modelled as `none`. -/
theorem empty_board_page_two_panics : homepage [] (some 2) = none := by decide

/-- C3 counterexample: the claim quantifies over every thread list and
requested page; on the empty list with requested page 3 it demands the
(empty) slice `[20, 0)`, but the code panics instead of returning a
slice. -/
theorem pagination_empty_board_high_page : homepage [] (some 3) = none := by decide

/-- C7 counterexample: the claim says the thumbnail preserves the original
aspect ratio.  For a 400×100 source, `image::imageops::thumbnail(&img,
200, 200)` produces a 200×200 image; preserving the 4:1 ratio would
require `width * 100 = height * 400`, which fails. -/
theorem thumbnail_not_aspect_preserving :
    ¬ ((thumbnailDims 400 100).1 * 100 = (thumbnailDims 400 100).2 * 400) := by
  decide

/-- C10: every Thread record written by `create_thread` has `media_url`
and `media_type` either both present or both absent: whenever the handler
succeeds, the thread record it wrote under the freshly allocated key
satisfies the invariant. -/
theorem media_fields_both_or_none
    (s : Store) (fs : Fs) (title message : String) (media : Option MediaUpload)
    (now : Int) (s2 : Store) (fs2 : Fs)
    (h : create_thread s fs title message media now = (.seeOther, s2, fs2)) :
    ∃ t : Thread, storeGet s2 (threadKey (count_threads s + 1)) = some (.thread t)
      ∧ t.media_url.isSome = t.media_type.isSome := by
  unfold create_thread at h
  split at h
  · simp at h
  · next mu mt fs1 heq =>
    split at h
    · simp at h
    · simp only [Prod.mk.injEq] at h
      obtain ⟨-, hs2, -⟩ := h
      refine ⟨⟨count_threads s + 1, strTrim title, strTrim message, now, mu, mt⟩, ?_, ?_⟩
      · rw [← hs2, storeGet_insert_self]
      · exact processMedia_pairs fs media mu mt fs1 heq

/-- C6: an image upload with a permitted extension whose stored bytes fail
to decode is rejected with the invalid-image error, the just-written file
is deleted (no residual file in the images directory), and no thread
record is written: store and filesystem are returned unchanged. -/
theorem invalid_image_rejected_clean
    (s : Store) (fs : Fs) (title message : String) (u : MediaUpload) (now : Int)
    (himg : u.mimeTop = "image")
    (hallow : allowedImageSub u.mimeSub = true)
    (hdec : u.decodeOk = false)
    (hfresh : sanitizedName u ∉ fs.imageFiles) :
    create_thread s fs title message (some u) now = (.mediaError .invalidImage, s, fs) := by
  have hpm : processMedia fs (some u) = (.error .invalidImage, fs) := by
    simp only [processMedia, himg, hallow, hdec, beq_self_eq_true, if_true,
      Bool.not_true, Bool.not_false, Bool.false_eq_true, if_false, if_true]
    rw [addFile, if_neg hfresh, List.erase_append_right _ hfresh,
      List.erase_cons_head, List.append_nil]
  unfold create_thread
  rw [hpm]

/-- C4: for a valid (decodable) non-GIF image upload with non-empty text
fields, the recorded media URL is the thumbnail's URL
`/thumbs/images/thumb_<name>` when the thumbnail generation step (the
second decode of the stored file) succeeds, and the original's URL
`/uploads/images/<name>` when it fails; the recorded kind is `Image` in
both cases.  (The result of saving the thumbnail file is discarded by the
source, so persistence failure alone does not trigger the fallback.) -/
theorem nongif_image_media_url
    (s : Store) (fs : Fs) (title message : String) (u : MediaUpload) (now : Int)
    (ht : strIsEmpty (strTrim title) = false)
    (hm : strIsEmpty (strTrim message) = false)
    (himg : u.mimeTop = "image")
    (hallow : allowedImageSub u.mimeSub = true)
    (hgif : u.mimeSub ≠ "gif")
    (hdec : u.decodeOk = true) :
    (create_thread s fs title message (some u) now).1 = .seeOther
    ∧ storeGet (create_thread s fs title message (some u) now).2.1
        (threadKey (count_threads s + 1))
      = some (.thread ⟨count_threads s + 1, strTrim title, strTrim message, now,
          some (if u.thumbDecodeOk then "/thumbs/images/" ++ thumbName (sanitizedName u)
                else "/uploads/images/" ++ sanitizedName u),
          some .Image⟩) := by
  have hgif2 : (u.mimeSub == "gif") = false := beq_eq_false_iff_ne.mpr hgif
  have hpm : ∃ fs1, processMedia fs (some u)
      = (.ok (some (if u.thumbDecodeOk then "/thumbs/images/" ++ thumbName (sanitizedName u)
                    else "/uploads/images/" ++ sanitizedName u), some .Image), fs1) := by
    simp only [processMedia, himg, hallow, hdec, hgif2, beq_self_eq_true, if_true,
      Bool.not_true, Bool.not_false, Bool.false_eq_true, if_false]
    cases hud : u.thumbDecodeOk <;> simp
  obtain ⟨fs1, hpm⟩ := hpm
  rw [create_thread_ok s fs title message (some u) now _ _ fs1 hpm ht hm]
  exact ⟨rfl, storeGet_insert_self _ _ _⟩

/-- C5: the id allocated by `create_thread` is the number of keys matching
the scan prefix `"thread_"` plus one (hence strictly positive), and the
id allocated by `create_reply` for parent `P` is the number of keys
matching the reply scan prefix for `P` plus one: the freshly written
records carry exactly these ids. -/
theorem id_allocation_by_count
    (s : Store) (fs : Fs) (title message : String) (media : Option MediaUpload)
    (now : Int) (mu : Option String) (mt : Option MediaType) (fs1 : Fs)
    (parent : Int) (rmsg : String)
    (hpm : processMedia fs media = (.ok (mu, mt), fs1))
    (ht : strIsEmpty (strTrim title) = false)
    (hm : strIsEmpty (strTrim message) = false)
    (hr : strIsEmpty (strTrim rmsg) = false) :
    storeGet (create_thread s fs title message media now).2.1
        (threadKey (count_threads s + 1))
      = some (.thread ⟨count_threads s + 1, strTrim title, strTrim message, now, mu, mt⟩)
    ∧ 0 < count_threads s + 1
    ∧ storeGet (create_reply s parent rmsg now).2
        (replyKey parent (count_replies s parent + 1))
      = some (.reply ⟨count_replies s parent + 1, strTrim rmsg⟩) := by
  refine ⟨?_, ?_, ?_⟩
  · rw [create_thread_ok s fs title message media now mu mt fs1 hpm ht hm]
    exact storeGet_insert_self _ _ _
  · have h0 : (0 : Int) ≤ count_threads s := by
      unfold count_threads
      omega
    omega
  · unfold create_reply
    simp only [hr, Bool.false_eq_true, if_false]
    rcases hmatch : (storeGet
        (storeInsert s (replyKey parent (count_replies s parent + 1))
          (Val.reply ⟨count_replies s parent + 1, strTrim rmsg⟩))
        (threadKey parent)).bind threadFromVal with _ | t0
    · exact storeGet_insert_self _ _ _
    · rw [storeGet_insert_ne _ _ _ _ (Ne.symm (threadKey_ne_replyKey parent parent _))]
      exact storeGet_insert_self _ _ _

/-- C8: a successful reply to parent `P` re-persists `P`'s thread record
with `last_updated` set to the current time — at least its previous
value — and leaves the record stored under every other thread key
unchanged. -/
theorem reply_touches_only_parent
    (s : Store) (parent : Int) (msg : String) (now : Int) (t : Thread)
    (hmsg : strIsEmpty (strTrim msg) = false)
    (ht : storeGet s (threadKey parent) = some (.thread t))
    (hle : t.last_updated ≤ now) :
    storeGet (create_reply s parent msg now).2 (threadKey parent)
      = some (.thread { t with last_updated := now })
    ∧ t.last_updated ≤ now
    ∧ ∀ k : String, strHasPre "thread_" k = true → k ≠ threadKey parent →
        storeGet (create_reply s parent msg now).2 k = storeGet s k := by
  have hkey : threadKey parent ≠ replyKey parent (count_replies s parent + 1) :=
    threadKey_ne_replyKey _ _ _
  have h1 : storeGet
      (storeInsert s (replyKey parent (count_replies s parent + 1))
        (Val.reply ⟨count_replies s parent + 1, strTrim msg⟩))
      (threadKey parent) = some (Val.thread t) := by
    rw [storeGet_insert_ne _ _ _ _ hkey]
    exact ht
  unfold create_reply
  simp only [hmsg, Bool.false_eq_true, if_false, h1, Option.some_bind, threadFromVal]
  refine ⟨storeGet_insert_self _ _ _, hle, ?_⟩
  intro k hpre hne
  rw [storeGet_insert_ne _ _ _ _ hne]
  have hne2 : k ≠ replyKey parent (count_replies s parent + 1) := by
    intro he
    rw [he, not_threadPre_replyKey] at hpre
    exact Bool.false_ne_true hpre
  rw [storeGet_insert_ne _ _ _ _ hne2]

lemma mem_addFile (l : List String) (n : String) : n ∈ addFile l n := by
  unfold addFile
  split
  · next h => exact h
  · simp

/-- C7 (amended): for a valid non-GIF image upload, the thumbnail produced
by `image::imageops::thumbnail(&img, 200, 200)` is exactly 200×200 — thus
within the 200×200 bound, but the original aspect ratio is not
preserved — and, when the filesystem write succeeds, it is persisted in
the thumbnail directory under `thumb_<unique-name>` derived from the
original unique filename, recorded at the matching `/thumbs/images/`
URL. -/
theorem thumbnail_dims_and_persistence
    (fs : Fs) (u : MediaUpload)
    (himg : u.mimeTop = "image")
    (hallow : allowedImageSub u.mimeSub = true)
    (hgif : u.mimeSub ≠ "gif")
    (hdec : u.decodeOk = true)
    (hth : u.thumbDecodeOk = true)
    (hsave : u.thumbSaveOk = true) :
    (thumbnailDims u.imgW u.imgH).1 ≤ 200 ∧ (thumbnailDims u.imgW u.imgH).2 ≤ 200
    ∧ thumbName (sanitizedName u) ∈ (processMedia fs (some u)).2.thumbFiles
    ∧ (processMedia fs (some u)).1
      = .ok (some ("/thumbs/images/" ++ thumbName (sanitizedName u)), some .Image) := by
  have hgif2 : (u.mimeSub == "gif") = false := beq_eq_false_iff_ne.mpr hgif
  have hpm : processMedia fs (some u)
      = (.ok (some ("/thumbs/images/" ++ thumbName (sanitizedName u)), some .Image),
         ⟨addFile fs.imageFiles (sanitizedName u), fs.videoFiles,
          addFile fs.thumbFiles (thumbName (sanitizedName u))⟩) := by
    simp only [processMedia, himg, hallow, hdec, hgif2, hth, hsave, beq_self_eq_true,
      if_true, Bool.not_true, Bool.not_false, Bool.false_eq_true, if_false]
  refine ⟨Nat.le_refl 200, Nat.le_refl 200, ?_, ?_⟩ <;> rw [hpm]
  exact mem_addFile _ _

instance : IsTotal Thread threadGE :=
  ⟨fun a b => le_total b.last_updated a.last_updated⟩

instance : IsTrans Thread threadGE :=
  ⟨fun _ _ _ h1 h2 => le_trans h2 h1⟩

lemma one_le_effPage (qp : Option Int) (tp : Int) : 1 ≤ effPage qp tp := by
  dsimp only [effPage]
  split
  · next h => omega
  · exact le_max_right _ 1

lemma effPage_le (qp : Option Int) (tp : Int) (h : 0 < tp) : effPage qp tp ≤ tp := by
  dsimp only [effPage]
  split
  · exact le_refl tp
  · next hc =>
    rcases not_and_or.mp hc with h1 | h2
    · exact not_lt.mp h1
    · exact absurd h h2

/-- The integer page count computed by the handler equals the exact
mathematical ceiling of `count / 10` (the source computes it through
`f64`, which is exact for every `i32` count). -/
lemma totalPages_eq_ceil (n : ℕ) : totalPages (n : Int) = ⌈(n : ℚ) / 10⌉ := by
  have h1 : 10 * (((n : Int) + 9) / 10) ≤ (n : Int) + 9 := by omega
  have h2 : (n : Int) ≤ 10 * (((n : Int) + 9) / 10) := by omega
  rw [totalPages, eq_comm, Int.ceil_eq_iff]
  constructor
  · rw [lt_div_iff₀ (by norm_num : (0:ℚ) < 10)]
    have h3 : (10 * (((n : Int) + 9) / 10) - 10 : Int) < (n : Int) := by omega
    have h3' : ((10 * (((n : Int) + 9) / 10) - 10 : Int) : ℚ) < ((n : Int) : ℚ) := by
      exact_mod_cast h3
    push_cast at h3' ⊢
    linarith
  · rw [div_le_iff₀ (by norm_num : (0:ℚ) < 10)]
    have h4 : ((n : Int) : ℚ) ≤ ((10 * (((n : Int) + 9) / 10) : Int) : ℚ) := by
      exact_mod_cast h2
    push_cast at h4 ⊢
    linarith

/-- C3 (amended): for every non-empty thread list and every requested
page, the homepage sorts by `last_updated` descending, computes
`total_pages = ceil(count / 10)`, clamps the requested page into
`[1, total_pages]`, and returns the slice
`[(page-1)*10, min(page*10, count))` of the sorted list.  (On an empty
list the code returns the empty slice only for requested pages ≤ 1; a
higher request makes the slice bounds inverted and the indexing panics,
see the counterexample.) -/
theorem pagination_engine_nonempty (l : List Thread) (qp : Option Int) (hl : l ≠ []) :
    List.Pairwise threadGE (sortThreads l)
    ∧ (sortThreads l).Perm l
    ∧ totalPages (l.length : Int) = ⌈(l.length : ℚ) / 10⌉
    ∧ homepage l qp
      = some (((sortThreads l).drop
            ((effPage qp (totalPages (l.length : Int)) - 1) * 10).toNat).take
          ((min (effPage qp (totalPages (l.length : Int)) * 10) (l.length : Int)).toNat
            - ((effPage qp (totalPages (l.length : Int)) - 1) * 10).toNat)) := by
  have hperm : (sortThreads l).Perm l := List.perm_insertionSort threadGE l
  have hlen : (sortThreads l).length = l.length := hperm.length_eq
  refine ⟨List.sorted_insertionSort threadGE l, hperm, totalPages_eq_ceil l.length, ?_⟩
  have hn : 0 < l.length := List.length_pos.mpr hl
  have htp : 0 < totalPages (l.length : Int) := by
    unfold totalPages
    omega
  have hp1 : 1 ≤ effPage qp (totalPages (l.length : Int)) := one_le_effPage _ _
  have hple : effPage qp (totalPages (l.length : Int)) ≤ totalPages (l.length : Int) :=
    effPage_le _ _ htp
  have hstart_lt : ((effPage qp (totalPages (l.length : Int)) - 1) * 10).toNat < l.length := by
    have h10 : 10 * (totalPages (l.length : Int) - 1) < (l.length : Int) := by
      unfold totalPages at *
      omega
    omega
  have hmin : (min (effPage qp (totalPages (l.length : Int)) * 10) (l.length : Int)).toNat
      = min (((effPage qp (totalPages (l.length : Int)) - 1) * 10).toNat + 10) l.length := by
    rcases le_total (effPage qp (totalPages (l.length : Int)) * 10) ((l.length : Int)) with hc | hc
    · rw [min_eq_left hc, min_eq_left (by omega)]
      omega
    · rw [min_eq_right hc, min_eq_right (by omega)]
      omega
  simp only [homepage, hlen]
  rw [if_pos (le_min_iff.mpr ⟨by omega, hstart_lt.le⟩)]
  rw [hmin]

/-! ### Witnesses -/

/-- Witness for C4 at a concrete valid PNG upload with the thumbnail
decode succeeding. -/
theorem nongif_image_media_url_witness :
    (create_thread [] ⟨[], [], []⟩ "a" "b"
        (some ⟨"image", "png", "u1", true, true, true, 50, 40⟩) 0).1
      = ThreadResult.seeOther
    ∧ storeGet (create_thread [] ⟨[], [], []⟩ "a" "b"
          (some ⟨"image", "png", "u1", true, true, true, 50, 40⟩) 0).2.1 "thread_1"
      = some (.thread ⟨1, "a", "b", 0, some "/thumbs/images/thumb_u1.png", some .Image⟩) :=
  nongif_image_media_url [] ⟨[], [], []⟩ "a" "b"
    ⟨"image", "png", "u1", true, true, true, 50, 40⟩ 0
    rfl rfl rfl rfl (by decide) rfl

/-- Witness for C5 on the empty store: thread id 1 and reply id 1. -/
theorem id_allocation_by_count_witness :
    storeGet (create_thread [] ⟨[], [], []⟩ "a" "b" none 0).2.1 "thread_1"
      = some (.thread ⟨1, "a", "b", 0, none, none⟩)
    ∧ (0 : Int) < 1
    ∧ storeGet (create_reply [] 3 "ok" 0).2 "reply_3_1" = some (.reply ⟨1, "ok"⟩) :=
  id_allocation_by_count [] ⟨[], [], []⟩ "a" "b" none 0 none none ⟨[], [], []⟩ 3 "ok"
    rfl rfl rfl rfl

/-- Witness for C6 at a concrete undecodable PNG upload. -/
theorem invalid_image_rejected_clean_witness :
    create_thread [] ⟨[], [], []⟩ "a" "b"
        (some ⟨"image", "png", "u1", false, false, false, 0, 0⟩) 0
      = (.mediaError .invalidImage, [], ⟨[], [], []⟩) :=
  invalid_image_rejected_clean [] ⟨[], [], []⟩ "a" "b"
    ⟨"image", "png", "u1", false, false, false, 0, 0⟩ 0
    rfl rfl rfl (by decide)

/-- Witness for C7 at a concrete 50×40 PNG upload. -/
theorem thumbnail_dims_and_persistence_witness :
    (thumbnailDims 50 40).1 ≤ 200 ∧ (thumbnailDims 50 40).2 ≤ 200
    ∧ "thumb_u1.png" ∈ (processMedia ⟨[], [], []⟩
        (some ⟨"image", "png", "u1", true, true, true, 50, 40⟩)).2.thumbFiles
    ∧ (processMedia ⟨[], [], []⟩
        (some ⟨"image", "png", "u1", true, true, true, 50, 40⟩)).1
      = .ok (some "/thumbs/images/thumb_u1.png", some .Image) :=
  thumbnail_dims_and_persistence ⟨[], [], []⟩
    ⟨"image", "png", "u1", true, true, true, 50, 40⟩
    rfl rfl (by decide) rfl rfl rfl

/-- Witness for C8: a reply at time 5 to a thread last updated at 3 bumps
it to 5 and leaves the other thread key `thread_2` unchanged. -/
theorem reply_touches_only_parent_witness :
    storeGet (create_reply [("thread_1", Val.thread ⟨1, "t", "m", 3, none, none⟩)]
        1 "hi" 5).2 "thread_1"
      = some (.thread ⟨1, "t", "m", 5, none, none⟩)
    ∧ (3 : Int) ≤ 5
    ∧ storeGet (create_reply [("thread_1", Val.thread ⟨1, "t", "m", 3, none, none⟩)]
        1 "hi" 5).2 "thread_2"
      = storeGet [("thread_1", Val.thread ⟨1, "t", "m", 3, none, none⟩)] "thread_2" :=
  ⟨(reply_touches_only_parent [("thread_1", Val.thread ⟨1, "t", "m", 3, none, none⟩)]
      1 "hi" 5 ⟨1, "t", "m", 3, none, none⟩ rfl (by decide) (by decide)).1,
   (reply_touches_only_parent [("thread_1", Val.thread ⟨1, "t", "m", 3, none, none⟩)]
      1 "hi" 5 ⟨1, "t", "m", 3, none, none⟩ rfl (by decide) (by decide)).2.1,
   (reply_touches_only_parent [("thread_1", Val.thread ⟨1, "t", "m", 3, none, none⟩)]
      1 "hi" 5 ⟨1, "t", "m", 3, none, none⟩ rfl (by decide) (by decide)).2.2
     "thread_2" (by decide) (by decide)⟩

/-- Witness for C10 at a concrete creation without attachment. -/
theorem media_fields_both_or_none_witness :
    ∃ t : Thread,
      storeGet [("thread_1", Val.thread ⟨1, "a", "b", 0, none, none⟩)] "thread_1"
        = some (.thread t)
      ∧ t.media_url.isSome = t.media_type.isSome :=
  media_fields_both_or_none [] ⟨[], [], []⟩ "a" "b" none 0
    [("thread_1", Val.thread ⟨1, "a", "b", 0, none, none⟩)] ⟨[], [], []⟩ (by decide)

/-- Witness for C3 on a concrete two-thread list at requested page 1. -/
theorem pagination_engine_nonempty_witness :
    List.Pairwise threadGE
      (sortThreads [⟨1, "t", "m", 3, none, none⟩, ⟨2, "t", "m", 7, none, none⟩])
    ∧ (sortThreads [⟨1, "t", "m", 3, none, none⟩, ⟨2, "t", "m", 7, none, none⟩]).Perm
        [⟨1, "t", "m", 3, none, none⟩, ⟨2, "t", "m", 7, none, none⟩]
    ∧ totalPages (([⟨1, "t", "m", 3, none, none⟩,
          ⟨2, "t", "m", 7, none, none⟩] : List Thread).length : Int)
      = ⌈(([⟨1, "t", "m", 3, none, none⟩,
          ⟨2, "t", "m", 7, none, none⟩] : List Thread).length : ℚ) / 10⌉
    ∧ homepage [⟨1, "t", "m", 3, none, none⟩, ⟨2, "t", "m", 7, none, none⟩] (some 1)
      = some (((sortThreads [⟨1, "t", "m", 3, none, none⟩,
            ⟨2, "t", "m", 7, none, none⟩]).drop
            ((effPage (some 1) (totalPages (([⟨1, "t", "m", 3, none, none⟩,
              ⟨2, "t", "m", 7, none, none⟩] : List Thread).length : Int)) - 1) * 10).toNat).take
          ((min (effPage (some 1) (totalPages (([⟨1, "t", "m", 3, none, none⟩,
              ⟨2, "t", "m", 7, none, none⟩] : List Thread).length : Int)) * 10)
            (([⟨1, "t", "m", 3, none, none⟩,
              ⟨2, "t", "m", 7, none, none⟩] : List Thread).length : Int)).toNat
            - ((effPage (some 1) (totalPages (([⟨1, "t", "m", 3, none, none⟩,
              ⟨2, "t", "m", 7, none, none⟩] : List Thread).length : Int)) - 1) * 10).toNat)) :=
  pagination_engine_nonempty
    [⟨1, "t", "m", 3, none, none⟩, ⟨2, "t", "m", 7, none, none⟩] (some 1) (by decide)

end Imageboard
